import Mathlib

/-!
Shallow embedding of the market-sentinel risk engine.

Sources embedded:
- src/analytics/historical_analytics.py  (compute_event_reaction)
- src/scoring/risk_engine.py             (score_event_risk and its factor functions)

Modelling conventions:
- Calendar dates are integers counting days; pandas Timedelta(days=n) is integer addition.
- Prices, returns and scores are rationals; Python float arithmetic on the
  values involved is modelled exactly (the decimal literals used by the code,
  such as 0.3 or 0.05, are taken at their decimal value).
- A pandas DataFrame row carries its index label (field label below).  pandas
  keeps the original labels through filtering and sort_values, while iloc
  slicing is positional; both behaviours are modelled faithfully.
- Dict results with an error key are modelled as Except values; collaborator
  calls that can raise are modelled as Except-valued parameters.
-/

/-- One row of the price DataFrame: the pandas index label together with the
date, symbol and close columns (the columns read by the analytics code). -/
structure PriceRow where
  label : Nat
  date : Int
  symbol : String
  close : Rat
deriving DecidableEq, Repr

/-- Typed failures of compute_event_reaction, mirroring the three
error-dictionary returns of the source. -/
inductive ReactionError where
  | noDataForTicker : ReactionError
  | insufficientData : Nat → ReactionError
  | eventDateNotFound : ReactionError
deriving DecidableEq, Repr

/-- One horizon entry of the result: the n-day return together with the
matched price and date, mirroring the N_day_return, N_day_price and
N_day_date keys. -/
structure HorizonEntry where
  ret : Rat
  price : Rat
  date : Int
deriving DecidableEq, Repr

/-- The volatility_20_day sub-result.  The numeric core kept here is the
sample variance of the daily returns used (pandas std squared), which is
rational and computable; the reported standard deviations are the square
roots, defined below as VolInfo.daily_volatility and
VolInfo.annualized_volatility. -/
structure VolInfo where
  rets : List Rat
  daily_variance : Rat
  sample_size : Nat
deriving DecidableEq, Repr

/-- Successful result of compute_event_reaction.  The ticker and event_date
echo fields of the source dictionary are elided; event_date_found, event_price,
the three horizon entries and the volatility block are kept. -/
structure ReactionResult where
  event_date_found : Int
  event_price : Rat
  day1 : Option HorizonEntry
  day3 : Option HorizonEntry
  day5 : Option HorizonEntry
  volatility : Option VolInfo
deriving DecidableEq, Repr

/-- Python str.upper, character by character (the symbols and tickers involved
are plain ASCII). -/
def strUpper (s : String) : String := ⟨s.data.map Char.toUpper⟩

/-- Python str.lower, character by character (the titles involved are plain
ASCII). -/
def strLower (s : String) : String := ⟨s.data.map Char.toLower⟩

/-- Python min on two naturals. -/
def natMin (a b : Nat) : Nat := if a ≤ b then a else b

/-- Python max on two rationals. -/
def pymax (a b : Rat) : Rat := if a ≤ b then b else a

/-- Python min on two rationals. -/
def pymin (a b : Rat) : Rat := if a ≤ b then a else b

/-- pymax agrees with the lattice max on the rationals. -/
theorem pymax_eq_max (a b : Rat) : pymax a b = max a b := by
  rw [pymax, max_def]

/-- pymin agrees with the lattice min on the rationals. -/
theorem pymin_eq_min (a b : Rat) : pymin a b = min a b := by
  rw [pymin, min_def]

/-- Rows of the DataFrame whose symbol matches the ticker case-insensitively
(source line: price_df[price_df[symbol].str.upper() == ticker.upper()]). -/
def tickerRows (df : List PriceRow) (ticker : String) : List PriceRow :=
  df.filter (fun r => strUpper r.symbol == strUpper ticker)

/-- Stable insertion of a row into a date-sorted list, placing the new row
before later rows of equal date, as a stable sort does. -/
def insertByDate (r : PriceRow) : List PriceRow → List PriceRow
  | [] => [r]
  | s :: t => if r.date ≤ s.date then r :: s :: t else s :: insertByDate r t

/-- Sort rows ascending by date (source: sort_values on the date column).
The data model assumes at most one row per (symbol, date), so tie order is
immaterial; the sort is modelled stable. -/
def sortByDate : List PriceRow → List PriceRow
  | [] => []
  | r :: t => insertByDate r (sortByDate t)

/-- The analysis window: the ticker rows, sorted ascending by date and
restricted to [event_date - days_before, event_date + days_after]. -/
def windowRows (df : List PriceRow) (ticker : String) (event_date days_before days_after : Int) :
    List PriceRow :=
  (sortByDate (tickerRows df ticker)).filter
    (fun r => decide (event_date - days_before ≤ r.date) && decide (r.date ≤ event_date + days_after))

/-- Daily returns of the rows after the first, each relative to the previous
row (pct_change): close[i] / close[i-1] - 1. -/
def dailyReturnsFrom (prev : PriceRow) : List PriceRow → List (Option Rat)
  | [] => []
  | r :: rest => some (r.close / prev.close - 1) :: dailyReturnsFrom r rest

/-- The daily_return column produced by pct_change: the first row has no
return (NaN in pandas, none here). -/
def dailyReturns : List PriceRow → List (Option Rat)
  | [] => []
  | r :: rest => none :: dailyReturnsFrom r rest

/-- Sample variance with the pandas default ddof = 1: sum of squared
deviations from the mean divided by (n - 1). -/
def sampleVariance (xs : List Rat) : Rat :=
  let n : Rat := xs.length
  let m : Rat := xs.sum / n
  (xs.map (fun x => (x - m) ^ 2)).sum / (n - 1)

/-- The horizon lookup of the source: around future = event date + days, keep
the window rows within two days of the target and take the first match in
ascending-date order (iloc[0] of the filtered frame). -/
def horizonEntry (w : List PriceRow) (event_row : PriceRow) (days : Int) : Option HorizonEntry :=
  let future := event_row.date + days
  match (w.filter (fun r => decide (future - 2 ≤ r.date) && decide (r.date ≤ future + 2))).head? with
  | some fr => some { ret := (fr.close - event_row.close) / event_row.close,
                      price := fr.close, date := fr.date }
  | none => none

/-- The volatility block of the source.  vol_start_idx = max(0, event_idx - 20)
and vol_end_idx = min(len(window), event_idx + 21) are computed from
event_idx, which in the source is the pandas index LABEL of the event row
(event_mask.idxmax()), and are then used as POSITIONS in window.iloc; the
label arithmetic is kept exactly as written.  The std call skips the NaN of
the first window row, hence the filterMap. -/
def volatilityOf (w : List PriceRow) (event_row : PriceRow) : Option VolInfo :=
  let vol_start := event_row.label - 20
  let vol_end := natMin w.length (event_row.label + 21)
  let vol_rows := (w.drop vol_start).take (vol_end - vol_start)
  let vol_rets := (((dailyReturns w).drop vol_start).take (vol_end - vol_start)).filterMap id
  if 10 ≤ vol_rows.length then
    some { rets := vol_rets, daily_variance := sampleVariance vol_rets,
           sample_size := vol_rows.length }
  else none

/-- Assembly of the successful result dictionary from the analysis window and
the effective event row. -/
def reactionSuccess (w : List PriceRow) (event_row : PriceRow) : ReactionResult :=
  { event_date_found := event_row.date
    event_price := event_row.close
    day1 := horizonEntry w event_row 1
    day3 := horizonEntry w event_row 3
    day5 := horizonEntry w event_row 5
    volatility := volatilityOf w event_row }

/-- compute_event_reaction of src/analytics/historical_analytics.py.
Steps, in source order: filter to the ticker (error if empty), sort by date
and restrict to the window (error if fewer than 2 rows), locate the first row
whose date is at or after the event date (error if none), then horizons and
volatility. -/
def compute_event_reaction (df : List PriceRow) (ticker : String)
    (event_date days_before days_after : Int) : Except ReactionError ReactionResult :=
  if (tickerRows df ticker).isEmpty then
    Except.error ReactionError.noDataForTicker
  else if (windowRows df ticker event_date days_before days_after).length < 2 then
    Except.error (ReactionError.insufficientData
      (windowRows df ticker event_date days_before days_after).length)
  else
    match (windowRows df ticker event_date days_before days_after).find?
        (fun r => decide (event_date ≤ r.date)) with
    | none => Except.error ReactionError.eventDateNotFound
    | some event_row =>
        Except.ok (reactionSuccess (windowRows df ticker event_date days_before days_after) event_row)

/-- The reported daily volatility: square root of the sample variance
(pandas std). -/
noncomputable def VolInfo.daily_volatility (v : VolInfo) : Real :=
  Real.sqrt (v.daily_variance : Real)

/-- The reported annualized volatility: daily volatility times the square root
of 252 (source: daily_volatility * (252 ** 0.5)). -/
noncomputable def VolInfo.annualized_volatility (v : VolInfo) : Real :=
  v.daily_volatility * Real.sqrt 252

/-- Extract the event price of a successful reaction result. -/
def eventPriceOf : Except ReactionError ReactionResult → Option Rat
  | Except.ok r => some r.event_price
  | Except.error _ => none

/-- Extract the volatility block of a successful reaction result. -/
def volInfoOf : Except ReactionError ReactionResult → Option VolInfo
  | Except.ok r => r.volatility
  | Except.error _ => none

/-- Extract the 1-day return of a successful reaction result. -/
def day1RetOf : Except ReactionError ReactionResult → Option Rat
  | Except.ok r => r.day1.map (fun h => h.ret)
  | Except.error _ => none

/-- Contiguous-prefix test on character lists, used to define the Python
substring operator. -/
def listStartsWith : List Char → List Char → Bool
  | _, [] => true
  | [], _ :: _ => false
  | h :: t, p :: ps => h == p && listStartsWith t ps

/-- Contiguous-substring test on character lists: the Python operator
pattern in hay. -/
def listHasSub : List Char → List Char → Bool
  | [], pat => pat.isEmpty
  | h :: t, pat => listStartsWith (h :: t) pat || listHasSub t pat

/-- Python substring containment keyword in title. -/
def strContains (hay pat : String) : Bool :=
  listHasSub hay.data pat.data

/-- The fixed negative-keyword list of analyze_sentiment_risk. -/
def negative_keywords : List String :=
  ["faces", "investigation", "probe", "recall", "lawsuit", "crisis", "scandal",
   "violation", "penalty", "ban", "shutdown", "failure", "breach"]

/-- The fixed positive-keyword list of analyze_sentiment_risk. -/
def positive_keywords : List String :=
  ["rally", "surge", "strong", "positive", "gains", "success", "breakthrough"]

/-- The fixed high-impact keyword list of analyze_impact_risk. -/
def high_impact_keywords : List String :=
  ["major", "massive", "significant", "historic", "unprecedented",
   "revolutionary", "breakthrough", "crisis", "emergency"]

/-- Keyword count of the source: sum over the fixed list of 1 for each keyword
occurring in the (already lowercased) title. -/
def keywordCount (title_lower : String) (kws : List String) : Nat :=
  kws.countP (fun k => strContains title_lower k)

/-- A similar event as consumed by the scoring code; only the sentiment_score
and impact_score fields are ever read by the risk engine. -/
structure SimilarEvent where
  sentiment_score : Rat
  impact_score : Rat
deriving DecidableEq, Repr

/-- The dictionary returned by retrieve_similar_events: a status string and the
similar_events list (empty when the key is absent, matching the .get default). -/
structure SimilarResult where
  status : String
  similar_events : List SimilarEvent
deriving DecidableEq, Repr

/-- The structured judgment of analyze_event; the fields read by the risk
engine are sentiment, ticker and summary. -/
structure MistralAnalysis where
  sentiment : String
  ticker : String
  summary : String
deriving DecidableEq, Repr

/-- The event descriptor: dict keys title, ticker, date, each possibly absent.
A present-but-empty title or ticker is falsy in the source conditions, which
the getD-and-compare tests below reproduce; the date is modelled as an
integer day when present. -/
structure Event where
  title : Option String
  ticker : Option String
  date : Option Int
deriving DecidableEq, Repr

/-- event.get(title, ). -/
def titleOf (e : Event) : String := e.title.getD ""

/-- The source guard: title key present and truthy. -/
def hasTitle (e : Event) : Bool := titleOf e != ""

/-- The source guard of Step 2: ticker and date keys present and truthy. -/
def hasTickerAndDate (e : Event) : Bool := (e.ticker.getD "" != "") && e.date.isSome

/-- The intermediate risk_assessment dictionary of score_event_risk: the 0-1
scale running score, the accumulated risk-factor strings, the stored similar
events and the market reaction (none while the market_reaction key holds no
successful result).  The event echo keys do not influence scoring and are
elided. -/
structure RiskAssessment where
  risk_score : Rat
  risk_factors : List String
  similar_events : List SimilarEvent
  market_reaction : Option ReactionResult
deriving DecidableEq, Repr

/-- The initial similar_result value of score_event_risk (line 27). -/
def initialSimilarResult : SimilarResult :=
  { status := "error", similar_events := [] }

/-- Step 0: analyze the title with the external classifier; the call is
wrapped in its own try, so a raising classifier degrades to an error marker
(none) rather than aborting. -/
def mistralStep (e : Event) (classify : String → Except String MistralAnalysis) :
    Option MistralAnalysis :=
  if hasTitle e then (classify (titleOf e)).toOption else none

/-- The similarity call of Step 1.  It is NOT wrapped in a local try: when the
provider raises, the exception travels to the top-level handler.  Without a
title the initial similar_result value stays in place. -/
def similarCall (e : Event) (simP : String → Except String SimilarResult) :
    Except String SimilarResult :=
  if hasTitle e then simP (titleOf e) else Except.ok initialSimilarResult

/-- Step 1 of score_event_risk: on a success status, store the similar events,
count the negative and high-impact ones and accumulate 0.2 and 0.15 points per
hit on the 0-1 running score with a risk-factor string per nonzero count; on
an error status or a missing title, only append the corresponding note.  The
numeric counts interpolated into the factor strings are elided. -/
def step1 (e : Event) (sr : SimilarResult) : RiskAssessment :=
  let base : RiskAssessment :=
    { risk_score := 0, risk_factors := [], similar_events := [], market_reaction := none }
  if hasTitle e then
    if sr.status == "success" then
      let evs := sr.similar_events
      let negative_events := evs.countP (fun ev => decide (ev.sentiment_score < -0.3))
      let high_impact_events := evs.countP (fun ev => decide (ev.impact_score > 0.7))
      let ra1 := { base with similar_events := evs }
      let ra2 :=
        if 0 < negative_events then
          { ra1 with risk_factors := ra1.risk_factors ++ ["Found similar negative events"],
                     risk_score := ra1.risk_score + negative_events * 0.2 }
        else ra1
      if 0 < high_impact_events then
        { ra2 with risk_factors := ra2.risk_factors ++ ["Found similar high-impact events"],
                   risk_score := ra2.risk_score + high_impact_events * 0.15 }
      else ra2
    else { base with risk_factors := ["Could not retrieve similar events"] }
  else { base with risk_factors := ["No event title provided for similarity analysis"] }

/-- Minimum of a list of rationals (Python min on a nonempty list; the empty
case is never used because the source guards it). -/
def listMin : List Rat → Rat
  | [] => 0
  | h :: t => t.foldl min h

/-- The annualized-volatility threshold test ann_vol > c of the source,
carried out on the computable variance: for a nonnegative variance and a
nonnegative threshold, sqrt(var) * sqrt(252) > c holds exactly when
252 * var > c * c (lemma annVolGtQ_iff below). -/
def annVolGtQ (v : VolInfo) (c : Rat) : Bool :=
  decide (c * c < 252 * v.daily_variance)

/-- Step 2 of score_event_risk: with ticker and date present, load the price
data (a raising load is caught by the local try and leaves only a note) and
compute the event reaction; on success store it, grade the average and worst
horizon returns, and grade the annualized volatility, accumulating 0-1 scale
points and notes; every failure appends a note instead.  The numbers
interpolated into the note strings are elided. -/
def step2 (e : Event) (priceLoad : Except String (List PriceRow)) (ra : RiskAssessment) :
    RiskAssessment :=
  if hasTickerAndDate e then
    match priceLoad with
    | Except.error _ =>
        { ra with risk_factors := ra.risk_factors ++ ["Error computing market reaction"] }
    | Except.ok df =>
        match compute_event_reaction df (e.ticker.getD "") (e.date.getD 0) 30 30 with
        | Except.error _ =>
            { ra with risk_factors := ra.risk_factors ++ ["Market reaction analysis failed"] }
        | Except.ok res =>
            let ra1 := { ra with market_reaction := some res }
            let returns_to_analyze :=
              ([res.day1, res.day3, res.day5].filterMap id).map (fun h => h.ret)
            let ra2 :=
              if returns_to_analyze.isEmpty then ra1
              else
                let avg_return := returns_to_analyze.sum / returns_to_analyze.length
                let max_negative_return := listMin returns_to_analyze
                let raA :=
                  if avg_return < -0.05 then
                    { ra1 with risk_factors := ra1.risk_factors ++ ["Severe negative market reaction"],
                               risk_score := ra1.risk_score + 0.3 }
                  else if avg_return < -0.02 then
                    { ra1 with risk_factors := ra1.risk_factors ++ ["Moderate negative market reaction"],
                               risk_score := ra1.risk_score + 0.15 }
                  else ra1
                if max_negative_return < -0.10 then
                  { raA with risk_factors := raA.risk_factors ++ ["Extreme single-day drop"],
                             risk_score := raA.risk_score + 0.25 }
                else raA
            match res.volatility with
            | some v =>
                if annVolGtQ v 0.5 then
                  { ra2 with risk_factors := ra2.risk_factors ++ ["Very high market volatility"],
                             risk_score := ra2.risk_score + 0.2 }
                else if annVolGtQ v 0.3 then
                  { ra2 with risk_factors := ra2.risk_factors ++ ["High market volatility"],
                             risk_score := ra2.risk_score + 0.1 }
                else ra2
            | none => ra2
  else
    { ra with risk_factors := ra.risk_factors ++ ["Missing ticker or date for market reaction analysis"] }

/-- Step 2.5 of score_event_risk: a successful classifier judgment adjusts the
0-1 running score by +0.2 for negative sentiment and -0.1 for positive
sentiment, appending the matching note.  The analysis dictionary of a
successful call is never falsy, so the source condition reduces to the Option
match. -/
def step2_5 (ai : Option MistralAnalysis) (ra : RiskAssessment) : RiskAssessment :=
  match ai with
  | none => ra
  | some a =>
      let s := strLower a.sentiment
      if s == "negative" then
        { ra with risk_score := ra.risk_score + 0.2,
                  risk_factors := ra.risk_factors ++ ["AI-detected negative sentiment"] }
      else if s == "positive" then
        { ra with risk_score := ra.risk_score - 0.1,
                  risk_factors := ra.risk_factors ++ ["AI-detected positive sentiment"] }
      else ra

/-- Factor 1, analyze_sentiment_risk: keyword points from the title plus
points for negative similar events, floored at 0. -/
def analyze_sentiment_risk (e : Event) (sr : SimilarResult) : Rat :=
  let title := strLower (titleOf e)
  let negative_count := keywordCount title negative_keywords
  let positive_count := keywordCount title positive_keywords
  let s1 : Rat := if 0 < negative_count then ((natMin 15 (negative_count * 5) : Nat) : Rat) else 0
  let s2 : Rat := if 0 < positive_count then ((natMin 5 (positive_count * 2) : Nat) : Rat) else 0
  let evs := sr.similar_events
  let negative_similar := evs.countP (fun ev => decide (ev.sentiment_score < -0.3))
  let s3 : Rat :=
    if evs.isEmpty then 0
    else if 0 < negative_similar then ((natMin 15 (negative_similar * 3) : Nat) : Rat) else 0
  pymax 0 (s1 - s2 + s3)

/-- Factor 2, analyze_impact_risk: high-impact keyword points from the title
plus points for high-impact similar events, floored at 0. -/
def analyze_impact_risk (e : Event) (sr : SimilarResult) : Rat :=
  let title := strLower (titleOf e)
  let impact_count := keywordCount title high_impact_keywords
  let s1 : Rat := if 0 < impact_count then ((natMin 10 (impact_count * 3) : Nat) : Rat) else 0
  let evs := sr.similar_events
  let high_impact_similar := evs.countP (fun ev => decide (ev.impact_score > 0.7))
  let s2 : Rat :=
    if evs.isEmpty then 0
    else if 0 < high_impact_similar then ((natMin 15 (high_impact_similar * 4) : Nat) : Rat) else 0
  pymax 0 (s1 + s2)

/-- Factor 3, analyze_similar_events_risk: two points per accumulated
risk-factor string plus a bonus of 10 for more than three similar events or 5
for more than one, capped at 20. -/
def analyze_similar_events_risk (ra : RiskAssessment) : Rat :=
  let score : Rat := (ra.risk_factors.length : Rat) * 2
  let score :=
    if 3 < ra.similar_events.length then score + 10
    else if 1 < ra.similar_events.length then score + 5
    else score
  pymin 20 score

/-- Factor 4, analyze_price_reaction_risk: zero without a successful reaction
result; otherwise points for bad average and worst horizon returns and for
high annualized volatility, capped at 25. -/
def analyze_price_reaction_risk (ro : Option ReactionResult) : Rat :=
  match ro with
  | none => 0
  | some r =>
      let returns_to_check := ([r.day1, r.day3, r.day5].filterMap id).map (fun h => h.ret)
      let s1 : Rat :=
        if returns_to_check.isEmpty then 0
        else
          let avg_return := returns_to_check.sum / returns_to_check.length
          let max_negative := listMin returns_to_check
          (if avg_return < -0.05 then (15 : Rat) else if avg_return < -0.02 then 8 else 0)
            + (if max_negative < -0.10 then 10 else 0)
      let s2 : Rat :=
        match r.volatility with
        | some v => if annVolGtQ v 0.5 then 10 else if annVolGtQ v 0.3 then 5 else 0
        | none => 0
      pymin 25 (s1 + s2)

/-- compute_comprehensive_risk_score: the four factors are summed, the sum is
clamped to [0, 100] by max(0, min(100, base_score)), and the level is High at
70 or above, Medium at 40 or above, Low otherwise.  The source passes
reaction_result alongside risk_assessment; they agree on the market reaction,
which is read here from ra.market_reaction.  The reasoning string is elided. -/
def compute_comprehensive_risk_score (e : Event) (ra : RiskAssessment) (sr : SimilarResult) :
    Rat × String :=
  let sentiment_score := analyze_sentiment_risk e sr
  let impact_score := analyze_impact_risk e sr
  let similar_score := analyze_similar_events_risk ra
  let price_score := analyze_price_reaction_risk ra.market_reaction
  let base_score := sentiment_score + impact_score + similar_score + price_score
  let final_score := pymax 0 (pymin 100 base_score)
  let risk_level :=
    if 70 ≤ final_score then "High"
    else if 40 ≤ final_score then "Medium"
    else "Low"
  (final_score, risk_level)

/-- generate_risk_recommendations: a fixed five-string list per level. -/
def generate_risk_recommendations (risk_level : String) : List String :=
  if risk_level == "High" then
    ["[HIGH RISK] IMMEDIATE ATTENTION REQUIRED",
     "Consider immediate position adjustments or hedging",
     "Monitor news feeds and social media closely",
     "Prepare contingency plans for further developments",
     "Consult with risk management team immediately"]
  else if risk_level == "Medium" then
    ["[MEDIUM RISK] INCREASED MONITORING RECOMMENDED",
     "Review and potentially adjust position sizing",
     "Stay informed about related news developments",
     "Consider setting additional stop-loss levels",
     "Monitor competitor reactions and market sentiment"]
  else
    ["[LOW RISK] NORMAL MONITORING PROCEDURES",
     "Continue standard market monitoring",
     "Note event for regular portfolio review",
     "No immediate action required",
     "Maintain existing risk management protocols"]

/-- The assessment returned by score_event_risk.  The raw_metrics subtree is
represented by its scoring-relevant parts: the similar-events count and the
market reaction block.  The error dictionary of the top-level handler carries
no recommendations and no metrics, modelled by the empty values. -/
structure ScoreResult where
  status : String
  risk_score : Rat
  risk_level : String
  recommendations : List String
  similar_events_count : Nat
  market_reaction : Option ReactionResult
deriving DecidableEq, Repr

/-- score_event_risk of src/scoring/risk_engine.py.  The collaborators are
parameters: the classifier and the similarity provider take the headline, and
the price loader stands for load_price_data on the fixed CSV path; an
Except.error value means the call raised.  The classifier call is caught
locally (Step 0) and the market-reaction block has its own handler, so of the
modelled behaviours only a raising similarity provider reaches the top-level
handler, which returns the UNKNOWN assessment. -/
def score_event_risk (e : Event) (classify : String → Except String MistralAnalysis)
    (simP : String → Except String SimilarResult)
    (priceLoad : Except String (List PriceRow)) : ScoreResult :=
  match similarCall e simP with
  | Except.error _ =>
      { status := "error", risk_score := 0, risk_level := "UNKNOWN",
        recommendations := [], similar_events_count := 0, market_reaction := none }
  | Except.ok sr =>
      let ai := mistralStep e classify
      let ra := step2_5 ai (step2 e priceLoad (step1 e sr))
      let fs := compute_comprehensive_risk_score e ra sr
      { status := "success", risk_score := fs.1, risk_level := fs.2,
        recommendations := generate_risk_recommendations fs.2,
        similar_events_count := ra.similar_events.length,
        market_reaction := ra.market_reaction }

/-- Scenario A price series: AAPL closes 150, 152, 148, 151, 155 on the days
encoded 15 to 19 (2024-01-15 to 2024-01-19), with the fresh-load index labels
0 to 4. -/
def scenarioASeries : List PriceRow :=
  [⟨0, 15, "AAPL", 150⟩, ⟨1, 16, "AAPL", 152⟩, ⟨2, 17, "AAPL", 148⟩,
   ⟨3, 18, "AAPL", 151⟩, ⟨4, 19, "AAPL", 155⟩]

/-- A DataFrame slice of fifty consecutive AAPL trading days (days 0 to 49)
whose index labels are 50 to 99, as produced by loading a CSV whose first
fifty rows belong to another symbol.  With event day 10, the analysis window
holds the 41 rows of days 0 to 40 and the event row sits at position 10 with
label 60. -/
def shiftedLabelSeries : List PriceRow :=
  (List.range 50).map (fun i => ⟨50 + i, (i : Int), "AAPL", 100⟩)

/-- Fifteen AAPL trading days with labels equal to positions, enough for the
volatility threshold. -/
def smallVolSeries : List PriceRow :=
  (List.range 15).map (fun i => ⟨i, (i : Int), "AAPL", 100 + (i : Rat)⟩)

/-- Scenario C event: present but empty title, no ticker, no date. -/
def scenarioCEvent : Event := ⟨some "", none, none⟩

/-- An event whose title contains no scoring keyword. -/
def plainTitleEvent : Event := ⟨some "hello news", none, none⟩

/-- A classifier stub that raises (network down). -/
def failingClassifier : String → Except String MistralAnalysis :=
  fun _ => Except.error "classifier raised"

/-- A classifier stub returning a negative judgment. -/
def negativeClassifier : String → Except String MistralAnalysis :=
  fun _ => Except.ok ⟨"negative", "", ""⟩

/-- A classifier stub returning an unknown judgment. -/
def unknownClassifier : String → Except String MistralAnalysis :=
  fun _ => Except.ok ⟨"unknown", "", ""⟩

/-- A similarity provider stub that succeeds with no matches. -/
def okEmptyProvider : String → Except String SimilarResult :=
  fun _ => Except.ok ⟨"success", []⟩

/-- A similarity provider stub that raises. -/
def failingProvider : String → Except String SimilarResult :=
  fun _ => Except.error "similarity backend raised"

/-- A price loader stub that raises (file missing). -/
def noPriceData : Except String (List PriceRow) :=
  Except.error "price file missing"

/-- Step 1 never stores a market reaction. -/
theorem step1_market_reaction (e : Event) (sr : SimilarResult) :
    (step1 e sr).market_reaction = none := by
  simp only [step1]
  split_ifs <;> rfl

/-- A failing price load leaves the market reaction untouched. -/
theorem step2_error_market_reaction (e : Event) (m : String) (ra : RiskAssessment) :
    (step2 e (Except.error m) ra).market_reaction = ra.market_reaction := by
  simp only [step2]
  split_ifs <;> rfl

/-- Step 2.5 never touches the market reaction. -/
theorem step2_5_market_reaction (ai : Option MistralAnalysis) (ra : RiskAssessment) :
    (step2_5 ai ra).market_reaction = ra.market_reaction := by
  cases ai with
  | none => rfl
  | some a =>
      simp only [step2_5]
      split_ifs <;> rfl

/-- C1: for every event input and every combination of collaborator
behaviours, the risk_score field of the assessment returned by
score_event_risk lies in the closed interval [0, 100]: the success branch
clamps the factor sum with max(0, min(100, base_score)) and the error branch
reports 0. -/
theorem risk_score_bounded (e : Event) (classify : String → Except String MistralAnalysis)
    (simP : String → Except String SimilarResult) (priceLoad : Except String (List PriceRow)) :
    0 ≤ (score_event_risk e classify simP priceLoad).risk_score
    ∧ (score_event_risk e classify simP priceLoad).risk_score ≤ 100 := by
  rcases h : similarCall e simP with msg | sr
  · simp only [score_event_risk, h]
    norm_num
  · simp only [score_event_risk, h, compute_comprehensive_risk_score]
    rw [pymax_eq_max, pymin_eq_min]
    refine ⟨le_max_left 0 _, max_le (by norm_num) (min_le_left _ _)⟩

/-- C9: score_event_risk always returns a well-formed assessment.  Its status
is success or it is the degraded error record with risk_score 0 and level
UNKNOWN; the error record arises exactly from an exception that reaches the
top-level handler (of the modelled collaborator behaviours, a raising
similarity provider); whenever the similarity call returns normally the
status is success, and a failed price-data load degrades the market-reaction
metrics to an absent block inside that assessment rather than aborting. -/
theorem aggregator_never_fails_outward (e : Event)
    (classify : String → Except String MistralAnalysis)
    (simP : String → Except String SimilarResult) (priceLoad : Except String (List PriceRow)) :
    ((score_event_risk e classify simP priceLoad).status = "success"
      ∨ ((score_event_risk e classify simP priceLoad).status = "error"
          ∧ (score_event_risk e classify simP priceLoad).risk_score = 0
          ∧ (score_event_risk e classify simP priceLoad).risk_level = "UNKNOWN"))
    ∧ (∀ msg, similarCall e simP = Except.error msg →
        (score_event_risk e classify simP priceLoad).status = "error"
        ∧ (score_event_risk e classify simP priceLoad).risk_score = 0
        ∧ (score_event_risk e classify simP priceLoad).risk_level = "UNKNOWN")
    ∧ (∀ sr, similarCall e simP = Except.ok sr →
        (score_event_risk e classify simP priceLoad).status = "success")
    ∧ (∀ msg, priceLoad = Except.error msg →
        (score_event_risk e classify simP priceLoad).market_reaction = none) := by
  rcases h : similarCall e simP with msg | sr
  · constructor
    · right
      refine ⟨?_, ?_, ?_⟩ <;> simp only [score_event_risk, h]
    · refine ⟨?_, ?_, ?_⟩
      · intro m hm
        refine ⟨?_, ?_, ?_⟩ <;> simp only [score_event_risk, h]
      · intro sr hsr
        exact absurd hsr (by simp)
      · intro m hm
        simp only [score_event_risk, h]
  · constructor
    · left
      simp only [score_event_risk, h]
    · refine ⟨?_, ?_, ?_⟩
      · intro m hm
        exact absurd hm (by simp)
      · intro sr2 hsr
        simp only [score_event_risk, h]
      · intro m hm
        subst hm
        simp only [score_event_risk, h]
        rw [step2_5_market_reaction, step2_error_market_reaction, step1_market_reaction]

/-- Witness for C9: with a raising similarity provider the call returns the
degraded UNKNOWN record instead of raising, and with a healthy provider but a
missing price file the call succeeds with an absent market-reaction block. -/
theorem aggregator_never_fails_outward_witness :
    ((score_event_risk plainTitleEvent negativeClassifier failingProvider noPriceData).status = "error"
      ∧ (score_event_risk plainTitleEvent negativeClassifier failingProvider noPriceData).risk_score = 0
      ∧ (score_event_risk plainTitleEvent negativeClassifier failingProvider noPriceData).risk_level = "UNKNOWN")
    ∧ (score_event_risk plainTitleEvent negativeClassifier okEmptyProvider noPriceData).status = "success"
    ∧ (score_event_risk plainTitleEvent negativeClassifier okEmptyProvider noPriceData).market_reaction = none :=
  ⟨(aggregator_never_fails_outward plainTitleEvent negativeClassifier failingProvider noPriceData).2.1
      "similarity backend raised" rfl,
   (aggregator_never_fails_outward plainTitleEvent negativeClassifier okEmptyProvider noPriceData).2.2.1
      ⟨"success", []⟩ rfl,
   (aggregator_never_fails_outward plainTitleEvent negativeClassifier okEmptyProvider noPriceData).2.2.2
      "price file missing" rfl⟩

/-- C2 counterexample: two identical inputs differing only in the classifier
sentiment (negative versus unknown) receive final scores 4 and 2.  The final
scores differ by 2 points (one extra risk-factor string counted by the
similar-events factor), not by the 0.2 sentiment adjustment claimed. -/
theorem sentiment_adjustment_counterexample :
    (score_event_risk plainTitleEvent negativeClassifier okEmptyProvider noPriceData).risk_score = 4
    ∧ (score_event_risk plainTitleEvent unknownClassifier okEmptyProvider noPriceData).risk_score = 2
    ∧ ¬ ((score_event_risk plainTitleEvent negativeClassifier okEmptyProvider noPriceData).risk_score
          = (score_event_risk plainTitleEvent unknownClassifier okEmptyProvider noPriceData).risk_score
            + 0.2) := by
  refine ⟨by with_unfolding_all decide, by with_unfolding_all decide, by with_unfolding_all decide⟩

/-- C2 amended: the classifier sentiment adjustment of +0.2 (negative) is
added to the intermediate 0-1 scale accumulator risk_assessment.risk_score,
but that accumulator is discarded: on every non-raising similarity call the
returned risk_score equals clamp(sum of the four factors, 0, 100) with no
sentiment-adjustment term. -/
theorem final_score_is_clamped_factor_sum (e : Event)
    (classify : String → Except String MistralAnalysis)
    (simP : String → Except String SimilarResult) (priceLoad : Except String (List PriceRow)) :
    (∀ sr, similarCall e simP = Except.ok sr →
      (score_event_risk e classify simP priceLoad).risk_score =
        pymax 0 (pymin 100
          (analyze_sentiment_risk e sr + analyze_impact_risk e sr
            + analyze_similar_events_risk
                (step2_5 (mistralStep e classify) (step2 e priceLoad (step1 e sr)))
            + analyze_price_reaction_risk
                (step2_5 (mistralStep e classify) (step2 e priceLoad (step1 e sr))).market_reaction)))
    ∧ (∀ ra a, strLower a.sentiment = "negative" →
        (step2_5 (some a) ra).risk_score = ra.risk_score + 0.2) := by
  constructor
  · intro sr h
    simp only [score_event_risk, h, compute_comprehensive_risk_score]
  · intro ra a ha
    simp [step2_5, ha]

/-- Witness for the amended C2: the clamped four-factor identity at a concrete
run, and the accumulator nudge at a concrete assessment. -/
theorem final_score_is_clamped_factor_sum_witness :
    (score_event_risk plainTitleEvent negativeClassifier okEmptyProvider noPriceData).risk_score =
      pymax 0 (pymin 100
        (analyze_sentiment_risk plainTitleEvent ⟨"success", []⟩
          + analyze_impact_risk plainTitleEvent ⟨"success", []⟩
          + analyze_similar_events_risk
              (step2_5 (mistralStep plainTitleEvent negativeClassifier)
                (step2 plainTitleEvent noPriceData (step1 plainTitleEvent ⟨"success", []⟩)))
          + analyze_price_reaction_risk
              (step2_5 (mistralStep plainTitleEvent negativeClassifier)
                (step2 plainTitleEvent noPriceData
                  (step1 plainTitleEvent ⟨"success", []⟩))).market_reaction))
    ∧ (step2_5 (some ⟨"negative", "", ""⟩) ⟨0, [], [], none⟩).risk_score
        = (⟨0, [], [], none⟩ : RiskAssessment).risk_score + 0.2 :=
  ⟨(final_score_is_clamped_factor_sum plainTitleEvent negativeClassifier okEmptyProvider
      noPriceData).1 ⟨"success", []⟩ rfl,
   (final_score_is_clamped_factor_sum plainTitleEvent negativeClassifier okEmptyProvider
      noPriceData).2 ⟨0, [], [], none⟩ ⟨"negative", "", ""⟩ rfl⟩

/-- C8 counterexample: on the Scenario C input (empty title, no ticker, no
date, collaborators returning nothing) the final risk score is 4, not 0: the
two degradation notes are themselves counted by the similar-events factor at
two points each. -/
theorem scenarioC_counterexample :
    (score_event_risk scenarioCEvent failingClassifier okEmptyProvider noPriceData).risk_score = 4
    ∧ (score_event_risk scenarioCEvent failingClassifier okEmptyProvider noPriceData).risk_score ≠ 0 := by
  refine ⟨by with_unfolding_all decide, by with_unfolding_all decide⟩

/-- C8 amended: on the Scenario C input the sentiment, impact and
price-reaction factors and the classifier sentiment adjustment are all 0 and
the level is Low, but the similar-events factor is 4 (two accumulated
risk-factor strings, two points each), so the final score is 4 rather
than 0. -/
theorem scenarioC_behaviour :
    analyze_sentiment_risk scenarioCEvent initialSimilarResult = 0
    ∧ analyze_impact_risk scenarioCEvent initialSimilarResult = 0
    ∧ analyze_price_reaction_risk
        (step2_5 (mistralStep scenarioCEvent failingClassifier)
          (step2 scenarioCEvent noPriceData
            (step1 scenarioCEvent initialSimilarResult))).market_reaction = 0
    ∧ (step2_5 (mistralStep scenarioCEvent failingClassifier)
        (step2 scenarioCEvent noPriceData
          (step1 scenarioCEvent initialSimilarResult))).risk_score = 0
    ∧ (step2_5 (mistralStep scenarioCEvent failingClassifier)
        (step2 scenarioCEvent noPriceData
          (step1 scenarioCEvent initialSimilarResult))).risk_factors.length = 2
    ∧ analyze_similar_events_risk
        (step2_5 (mistralStep scenarioCEvent failingClassifier)
          (step2 scenarioCEvent noPriceData
            (step1 scenarioCEvent initialSimilarResult))) = 4
    ∧ (score_event_risk scenarioCEvent failingClassifier okEmptyProvider noPriceData).risk_score = 4
    ∧ (score_event_risk scenarioCEvent failingClassifier okEmptyProvider noPriceData).risk_level = "Low" := by
  with_unfolding_all decide

/-- C3: whenever the analysis window holds at least two rows, the event price
of a successful computation is the close of the first window row (ascending
date order) whose date is at or after the event date, and when no window row
has such a date the call fails with the event-date-not-found error rather
than returning a partial result. -/
theorem event_price_first_row_at_or_after (df : List PriceRow) (t : String) (d : Int)
    (h2 : 2 ≤ (windowRows df t d 30 30).length) :
    (∀ r, (windowRows df t d 30 30).find? (fun x => decide (d ≤ x.date)) = some r →
      eventPriceOf (compute_event_reaction df t d 30 30) = some r.close)
    ∧ ((windowRows df t d 30 30).find? (fun x => decide (d ≤ x.date)) = none →
      compute_event_reaction df t d 30 30 = Except.error ReactionError.eventDateNotFound) := by
  have hne : (tickerRows df t).isEmpty = false := by
    cases hE : (tickerRows df t).isEmpty
    · rfl
    · exfalso
      have hnil : tickerRows df t = [] := by
        cases hl : tickerRows df t with
        | nil => rfl
        | cons a l => rw [hl] at hE; simp at hE
      rw [windowRows, hnil] at h2
      simp [sortByDate] at h2
  constructor
  · intro r hr
    unfold compute_event_reaction
    simp only [hne, Bool.false_eq_true, if_false]
    rw [if_neg (by omega), hr]
    rfl
  · intro hn
    unfold compute_event_reaction
    simp only [hne, Bool.false_eq_true, if_false]
    rw [if_neg (by omega), hn]

/-- Witness for C3 on the Scenario A series: the window has five rows, the
first row at or after day 17 is the 148 close, and that is the reported event
price. -/
theorem event_price_first_row_at_or_after_witness :
    eventPriceOf (compute_event_reaction scenarioASeries "AAPL" 17 30 30) = some 148 :=
  (event_price_first_row_at_or_after scenarioASeries "AAPL" 17
    (by with_unfolding_all decide)).1 ⟨2, 17, "AAPL", 148⟩ (by with_unfolding_all decide)

/-- Extract the 1-day horizon entry of a successful reaction result. -/
def day1Of : Except ReactionError ReactionResult → Option HorizonEntry
  | Except.ok r => r.day1
  | Except.error _ => none

/-- C4 counterexample: on the Scenario A input the reported 1-day return is
(152 - 148)/148 = 1/37 (about +0.0270), not (151 - 148)/148 = 3/148 (about
+0.0203) as claimed: the first ascending-date match within two days of
day 18 is day 16, whose close is 152. -/
theorem scenarioA_counterexample :
    day1RetOf (compute_event_reaction scenarioASeries "AAPL" 17 30 30) = some (1/37)
    ∧ ((1 : Rat)/37) ≠ 3/148 := by
  refine ⟨by with_unfolding_all decide, by with_unfolding_all decide⟩

/-- C4 amended: on the Scenario A input the event price is 148 and the 1-day
return is (152 - 148)/148, taken from the day 16 row (close 152), the first
ascending-date match within two days of the day 18 target. -/
theorem scenarioA_behaviour :
    eventPriceOf (compute_event_reaction scenarioASeries "AAPL" 17 30 30) = some 148
    ∧ day1Of (compute_event_reaction scenarioASeries "AAPL" 17 30 30)
        = some { ret := ((152 : Rat) - 148)/148, price := 152, date := 16 }
    ∧ ((152 : Rat) - 148)/148 = 1/37 := by
  refine ⟨by with_unfolding_all decide, by with_unfolding_all decide, by with_unfolding_all decide⟩

/-- C5 counterexample: with a series holding no row for the requested ticker,
the matching observations in the window number 0 (fewer than 2), yet the call
fails with the no-data-for-ticker error, not the insufficient-data one. -/
theorem missing_ticker_counterexample :
    compute_event_reaction [⟨0, 10, "MSFT", 100⟩] "AAPL" 10 30 30
        = Except.error ReactionError.noDataForTicker
    ∧ ReactionError.noDataForTicker ≠ ReactionError.insufficientData 0 := by
  refine ⟨by with_unfolding_all rfl, by with_unfolding_all decide⟩

/-- C5 amended: whenever at least one row matches the ticker but fewer than
two remain inside the analysis window, the call returns the
insufficient-data failure carrying the row count, and never a partial
result; when no row matches the ticker at all, the earlier
no-data-for-ticker failure is returned instead. -/
theorem insufficient_window_error (df : List PriceRow) (t : String) (d : Int)
    (hne : (tickerRows df t).isEmpty = false)
    (hlt : (windowRows df t d 30 30).length < 2) :
    compute_event_reaction df t d 30 30 =
      Except.error (ReactionError.insufficientData (windowRows df t d 30 30).length) := by
  unfold compute_event_reaction
  simp only [hne, Bool.false_eq_true, if_false]
  rw [if_pos hlt]

/-- Witness for the amended C5: one AAPL row inside the window produces the
insufficient-data failure with count 1. -/
theorem insufficient_window_error_witness :
    compute_event_reaction [⟨0, 10, "AAPL", 100⟩] "AAPL" 10 30 30
      = Except.error (ReactionError.insufficientData
          (windowRows [⟨0, 10, "AAPL", 100⟩] "AAPL" 10 30 30).length) :=
  insufficient_window_error [⟨0, 10, "AAPL", 100⟩] "AAPL" 10
    (by with_unfolding_all decide) (by with_unfolding_all decide)

/-- C6 evaluation at the failing input: fifty consecutive AAPL days whose
index labels are 50 to 99 (a frame whose first fifty rows belong to another
symbol).  The window holds 41 rows and the effective event row sits at
position 10, so the claimed sub-window (20 positions either side, clamped)
would hold 31 rows, enough for volatility; but the code slices with the
pandas LABEL 60 of the event row, keeping a single row, and reports
volatility unavailable. -/
theorem volatility_window_uses_labels :
    eventPriceOf (compute_event_reaction shiftedLabelSeries "AAPL" 10 30 30) = some 100
    ∧ (windowRows shiftedLabelSeries "AAPL" 10 30 30).length = 41
    ∧ (windowRows shiftedLabelSeries "AAPL" 10 30 30).findIdx
        (fun r => decide ((10 : Int) ≤ r.date)) = 10
    ∧ (((windowRows shiftedLabelSeries "AAPL" 10 30 30).drop (10 - 20)).take
        (natMin 41 (10 + 21) - (10 - 20))).length = 31
    ∧ volInfoOf (compute_event_reaction shiftedLabelSeries "AAPL" 10 30 30) = none := by
  refine ⟨by with_unfolding_all decide, by with_unfolding_all decide,
    by with_unfolding_all decide, by with_unfolding_all decide, by with_unfolding_all decide⟩

/-- The computable threshold test annVolGtQ used in the scoring embedding is
exactly the source comparison annualized_volatility > c, for the nonnegative
variances produced by sampleVariance and the nonnegative thresholds 0.5 and
0.3 used by the code. -/
theorem annVolGtQ_iff (v : VolInfo) (c : Rat) (hv : 0 ≤ v.daily_variance) (hc : 0 ≤ c) :
    (annVolGtQ v c = true) ↔ ((c : Real) < VolInfo.annualized_volatility v) := by
  have h1 : VolInfo.annualized_volatility v
      = Real.sqrt (((252 * v.daily_variance : Rat) : Real)) := by
    rw [VolInfo.annualized_volatility, VolInfo.daily_volatility,
      ← Real.sqrt_mul (by exact_mod_cast hv : (0 : Real) ≤ (v.daily_variance : Real)) 252]
    congr 1
    push_cast
    ring
  rw [h1, Real.lt_sqrt (by exact_mod_cast hc), annVolGtQ, decide_eq_true_iff, pow_two]
  constructor
  · intro h
    exact_mod_cast h
  · intro h
    exact_mod_cast h

/-- C7: for every input, the reported annualized volatility of a successful
computation is exactly the reported daily volatility multiplied by the square
root of 252, and the reported daily volatility is the square root of the
sample variance of the per-row returns of the volatility sub-window (the
pandas sample standard deviation). -/
theorem annualized_is_daily_times_sqrt252 (df : List PriceRow) (t : String) (d : Int) :
    (volInfoOf (compute_event_reaction df t d 30 30)).map VolInfo.annualized_volatility
      = (volInfoOf (compute_event_reaction df t d 30 30)).map
          (fun v => VolInfo.daily_volatility v * Real.sqrt 252)
    ∧ (volInfoOf (compute_event_reaction df t d 30 30)).map VolInfo.daily_variance
      = (volInfoOf (compute_event_reaction df t d 30 30)).map (fun v => sampleVariance v.rets) := by
  constructor
  · rfl
  · unfold compute_event_reaction
    split
    · rfl
    · split
      · rfl
      · split
        · rfl
        · simp only [volInfoOf, reactionSuccess]
          unfold volatilityOf
          dsimp only
          split
          · rfl
          · rfl

/-- C10: in the sentiment and impact factors, a keyword count is the number
of distinct keywords of the fixed list occurring as substrings of the
lowercased title: each keyword contributes at most one no matter how often it
appears (the title with two occurrences of banned counts 1), and matching is
substring-based, so ban inside banned and major inside majority count. -/
theorem keyword_count_semantics :
    (∀ t kws, keywordCount t kws = (kws.filter (fun k => strContains t k)).length)
    ∧ keywordCount "company banned twice, banned again" negative_keywords = 1
    ∧ strContains "banned" "ban" = true
    ∧ keywordCount "majority vote" high_impact_keywords = 1
    ∧ strLower "Product BANNED" = "product banned" := by
  refine ⟨fun t kws => List.countP_eq_length_filter _ _, by decide, by decide, by decide, by decide⟩
